import Mathlib

/-!
Verification of the "magic circle" particle system.

Shallow embedding of the procedural point generator and the chaos/formed
blend driver from `src/components/MagicParticles.tsx`, the ornament system
and gesture service from `src/services/geminiService.ts`, and the polling
controller from `src/components/VisionController.tsx`.  JavaScript numbers
are modelled as real numbers; `Math.random()` draws are modelled as
arbitrary reals in `[0, 1)` supplied as explicit arguments or streams.
-/

open Real

noncomputable section

/-- `THREE.MathUtils.lerp(x, y, t) = (1 - t) * x + t * y` (three.js MathUtils). -/
def lerp (x y t : ℝ) : ℝ := (1 - t) * x + t * y

/-- The per-tick blend update from the `useFrame` callbacks: starting at 0,
`currentMix = lerp(currentMix, target, delta * rate)` each tick, where `tgt n`
is the tick's target value and `d n` its elapsed-time delta. -/
def mixSeq (tgt d : ℕ → ℝ) (rate : ℝ) : ℕ → ℝ
  | 0 => 0
  | n + 1 => lerp (mixSeq tgt d rate n) (tgt n) (d n * rate)

/-- Closed form for the blend scalar with the target held at 1 and a fixed
per-tick delta. -/
theorem mixSeq_const_one (d rate : ℝ) (n : ℕ) :
    mixSeq (fun _ => 1) (fun _ => d) rate n = 1 - (1 - d * rate) ^ n := by
  induction n with
  | zero => simp [mixSeq]
  | succ n ih =>
    rw [mixSeq, ih, lerp]
    ring

/-- C1 (counterexample): with the binary target held at 1 and a single tick of
non-negative elapsed time `delta = 1`, the lerp update at rate 1.5 moves the
blend scalar from 0 to 1.5, leaving the interval `[0, 1]`. -/
theorem mixSeq_escapes_unit_interval :
    mixSeq (fun _ => 1) (fun _ => 1) 1.5 1 = 1.5 ∧
      ¬ mixSeq (fun _ => 1) (fun _ => 1) 1.5 1 ≤ 1 := by
  constructor
  · rw [mixSeq, mixSeq, lerp]; norm_num
  · rw [mixSeq, mixSeq, lerp]; norm_num

/-- C1 (amended): if moreover every tick's lerp factor `delta * 1.5` is at most 1,
then for every sequence of binary targets and non-negative deltas the blend
scalar, started at 0, remains in `[0, 1]` after every tick. -/
theorem mixSeq_mem_unit_interval (tgt d : ℕ → ℝ)
    (htgt : ∀ n, tgt n = 0 ∨ tgt n = 1) (hd : ∀ n, 0 ≤ d n)
    (hcap : ∀ n, d n * 1.5 ≤ 1) (n : ℕ) :
    0 ≤ mixSeq tgt d 1.5 n ∧ mixSeq tgt d 1.5 n ≤ 1 := by
  induction n with
  | zero => simp [mixSeq]
  | succ n ih =>
    have hf0 : 0 ≤ d n * 1.5 := by nlinarith [hd n]
    have hf1 : d n * 1.5 ≤ 1 := hcap n
    have ht : 0 ≤ tgt n ∧ tgt n ≤ 1 := by
      rcases htgt n with h | h <;> rw [h] <;> norm_num
    rw [mixSeq, lerp]
    constructor
    · nlinarith [mul_nonneg (by linarith : (0:ℝ) ≤ 1 - d n * 1.5) ih.1,
        mul_nonneg hf0 ht.1]
    · nlinarith [mul_nonneg (by linarith : (0:ℝ) ≤ 1 - d n * 1.5) (by linarith [ih.2] : (0:ℝ) ≤ 1 - mixSeq tgt d 1.5 n),
        mul_nonneg hf0 (by linarith [ht.2] : (0:ℝ) ≤ 1 - tgt n)]

/-- Witness for `mixSeq_mem_unit_interval`: target constantly 1, delta constantly
1/2, after 3 ticks. -/
theorem mixSeq_mem_unit_interval_witness :
    0 ≤ mixSeq (fun _ => 1) (fun _ => 1 / 2) 1.5 3 ∧
      mixSeq (fun _ => 1) (fun _ => 1 / 2) 1.5 3 ≤ 1 :=
  mixSeq_mem_unit_interval (fun _ => 1) (fun _ => 1 / 2)
    (fun _ => Or.inr rfl) (fun _ => by norm_num) (fun _ => by norm_num) 3

/-- C7 (counterexample): with target 1 and the fixed per-tick elapsed time 2,
a single tick of the rate-1.5 lerp update drives the blend scalar to 3,
so it does not stay at or below 1. -/
theorem mixSeq_const_delta_exceeds_one :
    mixSeq (fun _ => 1) (fun _ => 2) 1.5 1 = 3 ∧
      ¬ mixSeq (fun _ => 1) (fun _ => 2) 1.5 1 ≤ 1 := by
  constructor
  · rw [mixSeq, mixSeq, lerp]; norm_num
  · rw [mixSeq, mixSeq, lerp]; norm_num

/-- C7 (amended): with target 1 and a fixed per-tick elapsed time `d` whose lerp
factor satisfies `0 < d * 1.5 < 1`, the blend scalar started at 0 is strictly
monotonically increasing, always below 1, and converges to 1. -/
theorem mixSeq_const_one_strictMono_tendsto (d : ℝ)
    (hd : 0 < d * 1.5) (hcap : d * 1.5 < 1) :
    StrictMono (mixSeq (fun _ => 1) (fun _ => d) 1.5) ∧
      (∀ n, mixSeq (fun _ => 1) (fun _ => d) 1.5 n < 1) ∧
      Filter.Tendsto (mixSeq (fun _ => 1) (fun _ => d) 1.5)
        Filter.atTop (nhds 1) := by
  have hfun : mixSeq (fun _ => 1) (fun _ => d) 1.5 = fun n => 1 - (1 - d * 1.5) ^ n :=
    funext fun n => mixSeq_const_one d 1.5 n
  have h0 : (0:ℝ) < 1 - d * 1.5 := by linarith
  have h1 : (1:ℝ) - d * 1.5 < 1 := by linarith
  refine ⟨?_, ?_, ?_⟩
  · rw [hfun]
    apply strictMono_nat_of_lt_succ
    intro n
    have hp : (0:ℝ) < (1 - d * 1.5) ^ n := pow_pos h0 n
    have : (1 - d * 1.5) ^ (n + 1) < (1 - d * 1.5) ^ n := by
      rw [pow_succ]
      nlinarith
    show 1 - (1 - d * 1.5) ^ n < 1 - (1 - d * 1.5) ^ (n + 1)
    linarith
  · intro n
    rw [hfun]
    have hp : (0:ℝ) < (1 - d * 1.5) ^ n := pow_pos h0 n
    show 1 - (1 - d * 1.5) ^ n < 1
    linarith
  · rw [hfun]
    have hlim : Filter.Tendsto (fun n : ℕ => (1 - d * 1.5) ^ n)
        Filter.atTop (nhds 0) :=
      tendsto_pow_atTop_nhds_zero_of_lt_one (by linarith) h1
    have := hlim.const_sub (1:ℝ)
    simpa using this

/-- Witness for `mixSeq_const_one_strictMono_tendsto` at `d = 1/3`. -/
theorem mixSeq_const_one_strictMono_tendsto_witness :
    StrictMono (mixSeq (fun _ => 1) (fun _ => 1 / 3) 1.5) ∧
      (∀ n, mixSeq (fun _ => 1) (fun _ => 1 / 3) 1.5 n < 1) ∧
      Filter.Tendsto (mixSeq (fun _ => 1) (fun _ => 1 / 3) 1.5)
        Filter.atTop (nhds 1) :=
  mixSeq_const_one_strictMono_tendsto (1 / 3) (by norm_num) (by norm_num)

/-- C8: forcing the target to 1 for 300 ticks of 1/60 s each, at the ornament
system's smoothing rate 1.2, drives the blend scalar above 0.99. -/
theorem mixSeq_rate12_300_exceeds :
    mixSeq (fun _ => 1) (fun _ => 1 / 60) 1.2 300 > 0.99 := by
  rw [mixSeq_const_one]
  have h : (1:ℝ) - 1 / 60 * 1.2 = 49 / 50 := by norm_num
  rw [h]
  have hlt : ((49:ℝ) / 50) ^ 300 < 1 / 100 := by
    rw [div_pow, div_lt_div_iff₀ (by positivity) (by norm_num)]
    norm_num
  linarith

/-- Per-tick z-rotation of the particle formation (`MagicParticles` useFrame):
`if (currentMix > 0.5) rotation.z -= delta * 0.05`. -/
def particlesRotationTick (mix rot delta : ℝ) : ℝ :=
  if mix > 0.5 then rot - delta * 0.05 else rot

/-- Per-tick z-rotation of the ornament formation (`MagicOrnaments` useFrame):
`if (currentMix > 0.9) rotation.z -= delta * 0.05`. -/
def ornamentsRotationTick (mix rot delta : ℝ) : ℝ :=
  if mix > 0.9 then rot - delta * 0.05 else rot

/-- C5 (counterexample): with blend scalar 0.7 (at or below 0.9) and delta 1,
the particle system does change its rotation, contradicting the claim that
both systems rotate only above 0.9. -/
theorem particlesRotationTick_below_09_changes :
    particlesRotationTick 0.7 0 1 = -0.05 ∧ (0.7:ℝ) ≤ 0.9 := by
  constructor
  · rw [particlesRotationTick, if_pos (by norm_num : (0.7:ℝ) > 0.5)]
    norm_num
  · norm_num

/-- C5 (amended): on every tick the rotation of a formation changes exactly when
its blend scalar exceeds its system's threshold and the delta is non-zero; the
threshold is 0.5 for the particle system and 0.9 for the ornament system, and at
or below the threshold the rotation is left unchanged. -/
theorem rotationTick_changes_iff (mix rot delta : ℝ) :
    (particlesRotationTick mix rot delta ≠ rot ↔ mix > 0.5 ∧ delta ≠ 0) ∧
      (ornamentsRotationTick mix rot delta ≠ rot ↔ mix > 0.9 ∧ delta ≠ 0) := by
  constructor
  · rw [particlesRotationTick]
    by_cases h : mix > 0.5
    · rw [if_pos h]
      constructor
      · intro hne
        refine ⟨h, fun h0 => hne ?_⟩
        rw [h0]; ring
      · rintro ⟨-, hδ⟩ heq
        apply hδ
        nlinarith [sub_eq_zero.mpr heq.symm]
    · rw [if_neg h]
      simp [h]
  · rw [ornamentsRotationTick]
    by_cases h : mix > 0.9
    · rw [if_pos h]
      constructor
      · intro hne
        refine ⟨h, fun h0 => hne ?_⟩
        rw [h0]; ring
      · rintro ⟨-, hδ⟩ heq
        apply hδ
        nlinarith [sub_eq_zero.mpr heq.symm]
    · rw [if_neg h]
      simp [h]

/-- Hand openness categories returned by the vision service (`HandData.state`). -/
inductive HandState where
  | OPEN
  | CLOSED
  | UNKNOWN
  deriving DecidableEq

/-- The gesture signal: openness state plus normalized 2D hand position. -/
structure HandData where
  state : HandState
  x : ℝ
  y : ℝ
  deriving DecidableEq

/-- The neutral signal `{ state: 'UNKNOWN', x: 0.5, y: 0.5 }`. -/
def neutralHandData : HandData := ⟨HandState.UNKNOWN, 0.5, 0.5⟩

/-- Outcome of the `ai.models.generateContent` call inside `analyzeFrame`:
either the awaited promise rejects (the call throws), or it resolves with a
`response.text` that is absent (`none`) or a string (JavaScript truthiness
treats the empty string like an absent text). -/
inductive VisionCall where
  | throws : VisionCall
  | ok : Option String → VisionCall

/-- `analyzeFrame` from `src/services/geminiService.ts`, as a function of the
module's API key, the outcome of the vision call, and the `JSON.parse`-and-cast
step (`none` models a parse exception, which the surrounding try/catch
swallows).  An empty `apiKey` models `process.env.API_KEY` being unset. -/
def analyzeFrame (apiKey : String) (call : VisionCall)
    (parse : String → Option HandData) : HandData :=
  if apiKey = "" then neutralHandData
  else
    match call with
    | VisionCall.throws => neutralHandData
    | VisionCall.ok none => neutralHandData
    | VisionCall.ok (some s) =>
      if s = "" then neutralHandData
      else
        match parse s with
        | some data => data
        | none => neutralHandData

/-- C6: `analyzeFrame` is a total function (it never throws), and whenever the
API key is missing, the vision call throws, or the response carries no text,
it returns exactly the neutral signal `{ state: UNKNOWN, x: 0.5, y: 0.5 }`. -/
theorem analyzeFrame_neutral_on_failure (apiKey : String) (call : VisionCall)
    (parse : String → Option HandData)
    (h : apiKey = "" ∨ call = VisionCall.throws ∨ call = VisionCall.ok none ∨
      call = VisionCall.ok (some "")) :
    analyzeFrame apiKey call parse = neutralHandData := by
  rcases h with h | h | h | h
  · rw [analyzeFrame.eq_def, if_pos h]
  · rw [analyzeFrame.eq_def, h]
    split
    · rfl
    · rfl
  · rw [analyzeFrame.eq_def, h]
    split
    · rfl
    · rfl
  · rw [analyzeFrame.eq_def, h]
    split
    · rfl
    · show (if "" = "" then neutralHandData else _) = neutralHandData
      rw [if_pos rfl]

/-- Witness for `analyzeFrame_neutral_on_failure`: a throwing call with a
present API key. -/
theorem analyzeFrame_neutral_on_failure_witness :
    analyzeFrame "key" VisionCall.throws (fun _ => none) = neutralHandData :=
  analyzeFrame_neutral_on_failure "key" VisionCall.throws (fun _ => none)
    (Or.inr (Or.inl rfl))

/-- `getCirclePoint(r, angle)` from `MagicParticles.tsx`: a point on the circle
of radius `r` in the XY plane. -/
def getCirclePoint (r angle : ℝ) : ℝ × ℝ × ℝ :=
  (Real.cos angle * r, Real.sin angle * r, 0)

/-- `getPentagramPoint(r, index, offsetAngle)`: the `index`-th star-tip point on
the circle of radius `r`, with the top point at `π/2`. -/
def getPentagramPoint (r : ℝ) (index : ℕ) (offsetAngle : ℝ) : ℝ × ℝ × ℝ :=
  getCirclePoint r ((index : ℝ) * 2 * π / 5 + π / 2 + offsetAngle)

/-- `lerpPoint(p1, p2, t)`: linear interpolation of the XY coordinates, with
`z = 0`. -/
def lerpPoint (p1 p2 : ℝ × ℝ × ℝ) (t : ℝ) : ℝ × ℝ × ℝ :=
  (p1.1 + (p2.1 - p1.1) * t, p1.2.1 + (p2.2.1 - p1.2.1) * t, 0)

/-- `starPath = [0, 2, 4, 1, 3, 0]`, the pentagram drawing order. -/
def starPath : List ℕ := [0, 2, 4, 1, 3, 0]

/-- `Math.floor` of a non-negative real, as a natural-number index. -/
def floorNat (x : ℝ) : ℕ := ⌊x⌋.toNat

/-- One star-segment sample, as inlined in each pentagram branch:
`segment = Math.floor(Math.random() * 5)`, endpoints `starPath[segment]` and
`starPath[segment + 1]`, interpolated at a uniform fraction `t`. -/
def starSegmentPoint (r offsetAngle u t : ℝ) : ℝ × ℝ × ℝ :=
  lerpPoint (getPentagramPoint r (starPath.getD (floorNat (u * 5)) 0) offsetAngle)
    (getPentagramPoint r (starPath.getD (floorNat (u * 5) + 1) 0) offsetAngle) t

/-- Moon body circle center x-coordinate. -/
def cxBody : ℝ := -4.85

/-- Moon body circle radius. -/
def rBody : ℝ := 1.65

/-- Moon cutout circle center x-coordinate. -/
def cxCut : ℝ := -3.6

/-- Moon cutout circle radius. -/
def rCut : ℝ := 1.35

/-- The `i`-th candidate sampled by `getMoonPoint`'s loop from the bounding box
around the body circle; `rnd (2*i)` and `rnd (2*i+1)` are the two
`Math.random()` draws of that attempt. -/
def moonCandidate (rnd : ℕ → ℝ) (i : ℕ) : ℝ × ℝ :=
  (cxBody + (rnd (2 * i) - 0.5) * (rBody * 2), (rnd (2 * i + 1) - 0.5) * (rBody * 2))

/-- The acceptance test of `getMoonPoint`: inside the body circle and outside
the cutout circle. -/
def moonValid (q : ℝ × ℝ) : Prop :=
  Real.sqrt ((q.1 - cxBody) ^ 2 + q.2 ^ 2) ≤ rBody ∧
    Real.sqrt ((q.1 - cxCut) ^ 2 + q.2 ^ 2) ≥ rCut

open Classical in
/-- The rejection-sampling loop of `getMoonPoint`, with `i` the index of the
next attempt and `fuel` the number of attempts still allowed
(`attempts < 20`); when the fuel runs out it returns the fallback
`{ x: -6.5, y: 0, z: 0 }`. -/
def getMoonPointAux (rnd : ℕ → ℝ) : ℕ → ℕ → ℝ × ℝ × ℝ
  | _, 0 => (-6.5, 0, 0)
  | i, fuel + 1 =>
    if moonValid (moonCandidate rnd i) then
      ((moonCandidate rnd i).1, (moonCandidate rnd i).2, 0)
    else getMoonPointAux rnd (i + 1) fuel

/-- `getMoonPoint()` from `MagicParticles.tsx`: rejection sampling with at most
20 attempts. -/
def getMoonPoint (rnd : ℕ → ℝ) : ℝ × ℝ × ℝ := getMoonPointAux rnd 0 20

/-- The per-particle target-position-and-shape-type generation of
`MagicParticles.tsx` (the `p = Math.random()` branch cascade): given the
branch-selector draw `p` and the stream `rnd` of subsequent `Math.random()`
draws of this particle, returns the target position and the shape-type tag
(0 = standard/pink, 1 = moon/gold). -/
def genTarget (p : ℝ) (rnd : ℕ → ℝ) : (ℝ × ℝ × ℝ) × ℝ :=
  if p < 0.08 then (getCirclePoint 6.5 (rnd 0 * π * 2), 0)
  else if p < 0.20 then (starSegmentPoint 6.5 0 (rnd 0) (rnd 1), 0)
  else if p < 0.30 then (starSegmentPoint 6.5 (π / 1) (rnd 0) (rnd 1), 0)
  else if p < 0.40 then (getCirclePoint 3.2 (rnd 0 * π * 2), 0)
  else if p < 0.60 then (getMoonPoint rnd, 1)
  else if p < 0.72 then (starSegmentPoint 3.2 0 (rnd 0) (rnd 1), 0)
  else if p < 0.82 then (getCirclePoint 1.2 (rnd 0 * π * 2), 0)
  else if p < 0.92 then (starSegmentPoint 1.2 π (rnd 0) (rnd 1), 0)
  else ((Real.cos (rnd 1 * π * 2) * (rnd 0 * 0.5),
    Real.sin (rnd 1 * π * 2) * (rnd 0 * 0.5), 0), 0)

/-- Distance of a 3D point from the origin. -/
def originDist (q : ℝ × ℝ × ℝ) : ℝ :=
  Real.sqrt (q.1 ^ 2 + q.2.1 ^ 2 + q.2.2 ^ 2)

/-- The chaos-position sampling of `MagicParticles.tsx`:
`r = 18 * Math.cbrt(u1)`, `theta = u2 * 2 * Math.PI`,
`phi = Math.acos(2 * u3 - 1)`, converted to Cartesian coordinates.  The cube
root of the non-negative draw `u1` is `u1 ^ (1/3 : ℝ)`. -/
def chaosPos (u1 u2 u3 : ℝ) : ℝ × ℝ × ℝ :=
  (18 * u1 ^ ((1:ℝ) / 3) * Real.sin (Real.arccos (2 * u3 - 1)) * Real.cos (u2 * 2 * π),
   18 * u1 ^ ((1:ℝ) / 3) * Real.sin (Real.arccos (2 * u3 - 1)) * Real.sin (u2 * 2 * π),
   18 * u1 ^ ((1:ℝ) / 3) * Real.cos (Real.arccos (2 * u3 - 1)))

/-- Distance from the origin of a point given in polar form in the XY plane. -/
theorem originDist_cos_sin (a r : ℝ) (hr : 0 ≤ r) :
    originDist (Real.cos a * r, Real.sin a * r, 0) = r := by
  rw [originDist]
  have h : (Real.cos a * r) ^ 2 + (Real.sin a * r) ^ 2 + (0:ℝ) ^ 2 = r ^ 2 := by
    linear_combination r ^ 2 * Real.sin_sq_add_cos_sq a
  rw [h, Real.sqrt_sq hr]

/-- Distance bound from a bound on the sum of squared coordinates. -/
theorem originDist_le_of_sq (q : ℝ × ℝ × ℝ) (R : ℝ) (hR : 0 ≤ R)
    (h : q.1 ^ 2 + q.2.1 ^ 2 + q.2.2 ^ 2 ≤ R ^ 2) : originDist q ≤ R := by
  rw [originDist]
  calc Real.sqrt (q.1 ^ 2 + q.2.1 ^ 2 + q.2.2 ^ 2) ≤ Real.sqrt (R ^ 2) :=
        Real.sqrt_le_sqrt h
    _ = R := Real.sqrt_sq hR

/-- C9: for a radial draw `u1` in `[0, 1)`, the chaos position is at distance
exactly `18 * u1^(1/3)` from the origin, hence strictly inside the sphere of
radius 18, for all angle draws. -/
theorem chaosPos_dist (u1 u2 u3 : ℝ) (h0 : 0 ≤ u1) (h1 : u1 < 1) :
    originDist (chaosPos u1 u2 u3) = 18 * u1 ^ ((1:ℝ) / 3) ∧
      18 * u1 ^ ((1:ℝ) / 3) < 18 := by
  have hr : (0:ℝ) ≤ 18 * u1 ^ ((1:ℝ) / 3) :=
    mul_nonneg (by norm_num) (Real.rpow_nonneg h0 _)
  constructor
  · rw [chaosPos, originDist]
    have hsum :
        (18 * u1 ^ ((1:ℝ) / 3) * Real.sin (Real.arccos (2 * u3 - 1)) *
            Real.cos (u2 * 2 * π)) ^ 2 +
          (18 * u1 ^ ((1:ℝ) / 3) * Real.sin (Real.arccos (2 * u3 - 1)) *
            Real.sin (u2 * 2 * π)) ^ 2 +
          (18 * u1 ^ ((1:ℝ) / 3) * Real.cos (Real.arccos (2 * u3 - 1))) ^ 2 =
          (18 * u1 ^ ((1:ℝ) / 3)) ^ 2 := by
      linear_combination
        (18 * u1 ^ ((1:ℝ) / 3)) ^ 2 * Real.sin (Real.arccos (2 * u3 - 1)) ^ 2 *
            Real.sin_sq_add_cos_sq (u2 * 2 * π) +
          (18 * u1 ^ ((1:ℝ) / 3)) ^ 2 *
            Real.sin_sq_add_cos_sq (Real.arccos (2 * u3 - 1))
    rw [hsum, Real.sqrt_sq hr]
  · have hlt : u1 ^ ((1:ℝ) / 3) < 1 := Real.rpow_lt_one h0 h1 (by norm_num)
    linarith

/-- Witness for `chaosPos_dist` at `u1 = 0`. -/
theorem chaosPos_dist_witness :
    originDist (chaosPos 0 0 0) = 18 * (0:ℝ) ^ ((1:ℝ) / 3) ∧
      18 * (0:ℝ) ^ ((1:ℝ) / 3) < 18 :=
  chaosPos_dist 0 0 0 (le_refl 0) (by norm_num)

/-- The deterministic fallback point `(-6.5, 0)` itself passes the crescent
acceptance test: it is on the body circle and outside the cutout circle. -/
theorem moonValid_fallback : moonValid (-6.5, 0) := by
  rw [moonValid]
  constructor
  · have h : (((-6.5:ℝ), (0:ℝ)).1 - cxBody) ^ 2 + ((-6.5:ℝ), (0:ℝ)).2 ^ 2 =
        (1.65:ℝ) ^ 2 := by
      rw [cxBody]; norm_num
    rw [h, Real.sqrt_sq (by norm_num), rBody]
  · have h : (((-6.5:ℝ), (0:ℝ)).1 - cxCut) ^ 2 + ((-6.5:ℝ), (0:ℝ)).2 ^ 2 =
        (2.9:ℝ) ^ 2 := by
      rw [cxCut]; norm_num
    rw [h, Real.sqrt_sq (by norm_num), rCut]
    norm_num

open Classical in
/-- Unfolding equation for one iteration of the moon sampling loop. -/
theorem getMoonPointAux_succ (rnd : ℕ → ℝ) (i fuel : ℕ) :
    getMoonPointAux rnd i (fuel + 1) =
      (if moonValid (moonCandidate rnd i) then
        ((moonCandidate rnd i).1, (moonCandidate rnd i).2, 0)
      else getMoonPointAux rnd (i + 1) fuel) := rfl

/-- The moon loop starting at attempt `i` with `fuel` attempts left either
accepts one of the candidates `i ≤ j < i + fuel`, or returns the fallback. -/
theorem getMoonPointAux_cases (rnd : ℕ → ℝ) :
    ∀ fuel i, (∃ j, i ≤ j ∧ j < i + fuel ∧ moonValid (moonCandidate rnd j) ∧
        getMoonPointAux rnd i fuel =
          ((moonCandidate rnd j).1, (moonCandidate rnd j).2, 0)) ∨
      getMoonPointAux rnd i fuel = (-6.5, 0, 0)
  | 0, i => Or.inr rfl
  | fuel + 1, i => by
    rw [getMoonPointAux_succ]
    by_cases h : moonValid (moonCandidate rnd i)
    · exact Or.inl ⟨i, le_refl i, by omega, h, by rw [if_pos h]⟩
    · rw [if_neg h]
      rcases getMoonPointAux_cases rnd fuel (i + 1) with ⟨j, hj1, hj2, hv, he⟩ | he
      · exact Or.inl ⟨j, by omega, by omega, hv, he⟩
      · exact Or.inr he

/-- C4: `getMoonPoint` performs at most 20 sampling attempts and, for every
sequence of random draws, either returns an accepted candidate of one of those
attempts or the deterministic fallback point `(-6.5, 0, 0)`. -/
theorem getMoonPoint_cases (rnd : ℕ → ℝ) :
    (∃ j, j < 20 ∧ moonValid (moonCandidate rnd j) ∧
      getMoonPoint rnd = ((moonCandidate rnd j).1, (moonCandidate rnd j).2, 0)) ∨
    getMoonPoint rnd = (-6.5, 0, 0) := by
  rcases getMoonPointAux_cases rnd 20 0 with ⟨j, hj1, hj2, hv, he⟩ | he
  · exact Or.inl ⟨j, by omega, hv, he⟩
  · exact Or.inr he

/-- Every point the moon loop returns, the fallback included, passes the
acceptance test and lies in the XY plane. -/
theorem getMoonPointAux_valid (rnd : ℕ → ℝ) :
    ∀ fuel i,
      moonValid ((getMoonPointAux rnd i fuel).1, (getMoonPointAux rnd i fuel).2.1) ∧
        (getMoonPointAux rnd i fuel).2.2 = 0
  | 0, _ => ⟨moonValid_fallback, rfl⟩
  | fuel + 1, i => by
    rw [getMoonPointAux_succ]
    by_cases h : moonValid (moonCandidate rnd i)
    · rw [if_pos h]
      exact ⟨h, rfl⟩
    · rw [if_neg h]
      exact getMoonPointAux_valid rnd fuel (i + 1)

/-- Branch 1 (outer circle, `p < 0.08`). -/
theorem genTarget_outerRing {p : ℝ} (rnd : ℕ → ℝ) (h : p < 0.08) :
    genTarget p rnd = (getCirclePoint 6.5 (rnd 0 * π * 2), 0) := by
  rw [genTarget, if_pos h]

/-- Branch 2 (large pentagram A, `0.08 ≤ p < 0.20`). -/
theorem genTarget_starA {p : ℝ} (rnd : ℕ → ℝ) (h1 : 0.08 ≤ p) (h2 : p < 0.20) :
    genTarget p rnd = (starSegmentPoint 6.5 0 (rnd 0) (rnd 1), 0) := by
  rw [genTarget, if_neg (not_lt.mpr h1), if_pos h2]

/-- Branch 3 (large pentagram B, `0.20 ≤ p < 0.30`). -/
theorem genTarget_starB {p : ℝ} (rnd : ℕ → ℝ) (h1 : 0.20 ≤ p) (h2 : p < 0.30) :
    genTarget p rnd = (starSegmentPoint 6.5 (π / 1) (rnd 0) (rnd 1), 0) := by
  rw [genTarget, if_neg (not_lt.mpr (by linarith)), if_neg (not_lt.mpr h1),
    if_pos h2]

/-- Branch 4 (middle circle, `0.30 ≤ p < 0.40`). -/
theorem genTarget_middleRing {p : ℝ} (rnd : ℕ → ℝ) (h1 : 0.30 ≤ p) (h2 : p < 0.40) :
    genTarget p rnd = (getCirclePoint 3.2 (rnd 0 * π * 2), 0) := by
  rw [genTarget, if_neg (not_lt.mpr (by linarith)), if_neg (not_lt.mpr (by linarith)),
    if_neg (not_lt.mpr h1), if_pos h2]

/-- Branch 5 (crescent moon, `0.40 ≤ p < 0.60`). -/
theorem genTarget_moon {p : ℝ} (rnd : ℕ → ℝ) (h1 : 0.40 ≤ p) (h2 : p < 0.60) :
    genTarget p rnd = (getMoonPoint rnd, 1) := by
  rw [genTarget, if_neg (not_lt.mpr (by linarith)), if_neg (not_lt.mpr (by linarith)),
    if_neg (not_lt.mpr (by linarith)), if_neg (not_lt.mpr h1), if_pos h2]

/-- Branch 6 (inner pentagram, `0.60 ≤ p < 0.72`). -/
theorem genTarget_innerStar {p : ℝ} (rnd : ℕ → ℝ) (h1 : 0.60 ≤ p) (h2 : p < 0.72) :
    genTarget p rnd = (starSegmentPoint 3.2 0 (rnd 0) (rnd 1), 0) := by
  rw [genTarget, if_neg (not_lt.mpr (by linarith)), if_neg (not_lt.mpr (by linarith)),
    if_neg (not_lt.mpr (by linarith)), if_neg (not_lt.mpr (by linarith)),
    if_neg (not_lt.mpr h1), if_pos h2]

/-- Branch 7 (inner circle, `0.72 ≤ p < 0.82`). -/
theorem genTarget_innerRing {p : ℝ} (rnd : ℕ → ℝ) (h1 : 0.72 ≤ p) (h2 : p < 0.82) :
    genTarget p rnd = (getCirclePoint 1.2 (rnd 0 * π * 2), 0) := by
  rw [genTarget, if_neg (not_lt.mpr (by linarith)), if_neg (not_lt.mpr (by linarith)),
    if_neg (not_lt.mpr (by linarith)), if_neg (not_lt.mpr (by linarith)),
    if_neg (not_lt.mpr (by linarith)), if_neg (not_lt.mpr h1), if_pos h2]

/-- Branch 8 (tiny center star, `0.82 ≤ p < 0.92`). -/
theorem genTarget_centerStar {p : ℝ} (rnd : ℕ → ℝ) (h1 : 0.82 ≤ p) (h2 : p < 0.92) :
    genTarget p rnd = (starSegmentPoint 1.2 π (rnd 0) (rnd 1), 0) := by
  rw [genTarget, if_neg (not_lt.mpr (by linarith)), if_neg (not_lt.mpr (by linarith)),
    if_neg (not_lt.mpr (by linarith)), if_neg (not_lt.mpr (by linarith)),
    if_neg (not_lt.mpr (by linarith)), if_neg (not_lt.mpr (by linarith)),
    if_neg (not_lt.mpr h1), if_pos h2]

/-- Branch 9 (center fill, `0.92 ≤ p`). -/
theorem genTarget_centerFill {p : ℝ} (rnd : ℕ → ℝ) (h1 : 0.92 ≤ p) :
    genTarget p rnd = ((Real.cos (rnd 1 * π * 2) * (rnd 0 * 0.5),
      Real.sin (rnd 1 * π * 2) * (rnd 0 * 0.5), 0), 0) := by
  rw [genTarget, if_neg (not_lt.mpr (by linarith)), if_neg (not_lt.mpr (by linarith)),
    if_neg (not_lt.mpr (by linarith)), if_neg (not_lt.mpr (by linarith)),
    if_neg (not_lt.mpr (by linarith)), if_neg (not_lt.mpr (by linarith)),
    if_neg (not_lt.mpr (by linarith)), if_neg (not_lt.mpr h1)]

/-- C2 (counterexample): the draw `p = 0.45` lies outside the claimed crescent
sub-range 0.50–0.60, yet the generated shape-type tag is the moon value 1. -/
theorem genTarget_shapeType_at_045 :
    (genTarget 0.45 (fun _ => 0)).2 = 1 ∧ ¬ ((0.50:ℝ) ≤ 0.45) := by
  constructor
  · rw [genTarget_moon (fun _ => 0) (by norm_num) (by norm_num)]
  · norm_num

/-- C2 (amended): the shape-type tag is the moon value 1 exactly when the
branch-selector draw `p` falls in the crescent sub-range `0.40 ≤ p < 0.60`
(of width 20%), and every other draw yields the standard tag 0. -/
theorem genTarget_shapeType_iff (p : ℝ) (rnd : ℕ → ℝ) :
    ((genTarget p rnd).2 = 1 ↔ 0.40 ≤ p ∧ p < 0.60) ∧
      ((genTarget p rnd).2 = 0 ∨ (genTarget p rnd).2 = 1) := by
  by_cases h1 : p < 0.08
  · rw [genTarget_outerRing rnd h1]
    exact ⟨⟨fun habs => absurd habs (by norm_num),
      fun hc => absurd hc.1 (by linarith)⟩, Or.inl rfl⟩
  by_cases h2 : p < 0.20
  · rw [genTarget_starA rnd (not_lt.mp h1) h2]
    exact ⟨⟨fun habs => absurd habs (by norm_num),
      fun hc => absurd hc.1 (by linarith)⟩, Or.inl rfl⟩
  by_cases h3 : p < 0.30
  · rw [genTarget_starB rnd (not_lt.mp h2) h3]
    exact ⟨⟨fun habs => absurd habs (by norm_num),
      fun hc => absurd hc.1 (by linarith)⟩, Or.inl rfl⟩
  by_cases h4 : p < 0.40
  · rw [genTarget_middleRing rnd (not_lt.mp h3) h4]
    exact ⟨⟨fun habs => absurd habs (by norm_num),
      fun hc => absurd hc.1 (by linarith)⟩, Or.inl rfl⟩
  by_cases h5 : p < 0.60
  · rw [genTarget_moon rnd (not_lt.mp h4) h5]
    exact ⟨⟨fun _ => ⟨not_lt.mp h4, h5⟩, fun _ => rfl⟩, Or.inr rfl⟩
  by_cases h6 : p < 0.72
  · rw [genTarget_innerStar rnd (not_lt.mp h5) h6]
    exact ⟨⟨fun habs => absurd habs (by norm_num),
      fun hc => absurd hc.2 (by linarith)⟩, Or.inl rfl⟩
  by_cases h7 : p < 0.82
  · rw [genTarget_innerRing rnd (not_lt.mp h6) h7]
    exact ⟨⟨fun habs => absurd habs (by norm_num),
      fun hc => absurd hc.2 (by linarith)⟩, Or.inl rfl⟩
  by_cases h8 : p < 0.92
  · rw [genTarget_centerStar rnd (not_lt.mp h7) h8]
    exact ⟨⟨fun habs => absurd habs (by norm_num),
      fun hc => absurd hc.2 (by linarith)⟩, Or.inl rfl⟩
  · rw [genTarget_centerFill rnd (not_lt.mp h8)]
    exact ⟨⟨fun habs => absurd habs (by norm_num),
      fun hc => absurd hc.2 (by linarith)⟩, Or.inl rfl⟩

/-- C3: for every particle and every sequence of draws in `[0,1)`, the target
position lies in its selected primitive's defining region: outer/middle/inner
ring points at distance exactly 6.5/3.2/1.2 from the origin, crescent points
(the deterministic fallback included) inside the body circle and outside the
cutout circle, and center-fill points at distance at most 0.5. -/
theorem genTarget_in_region (p : ℝ) (rnd : ℕ → ℝ)
    (hr : ∀ i, 0 ≤ rnd i ∧ rnd i < 1) :
    (p < 0.08 → originDist (genTarget p rnd).1 = 6.5) ∧
      (0.30 ≤ p → p < 0.40 → originDist (genTarget p rnd).1 = 3.2) ∧
      (0.72 ≤ p → p < 0.82 → originDist (genTarget p rnd).1 = 1.2) ∧
      (0.40 ≤ p → p < 0.60 →
        moonValid ((genTarget p rnd).1.1, (genTarget p rnd).1.2.1)) ∧
      (0.92 ≤ p → originDist (genTarget p rnd).1 ≤ 0.5) := by
  refine ⟨?_, ?_, ?_, ?_, ?_⟩
  · intro h
    rw [genTarget_outerRing rnd h]
    exact originDist_cos_sin (rnd 0 * π * 2) 6.5 (by norm_num)
  · intro h1 h2
    rw [genTarget_middleRing rnd h1 h2]
    exact originDist_cos_sin (rnd 0 * π * 2) 3.2 (by norm_num)
  · intro h1 h2
    rw [genTarget_innerRing rnd h1 h2]
    exact originDist_cos_sin (rnd 0 * π * 2) 1.2 (by norm_num)
  · intro h1 h2
    rw [genTarget_moon rnd h1 h2]
    exact (getMoonPointAux_valid rnd 20 0).1
  · intro h
    rw [genTarget_centerFill rnd h]
    have h0 := (hr 0).1
    have h1 := (hr 0).2
    have heq : originDist (Real.cos (rnd 1 * π * 2) * (rnd 0 * 0.5),
        Real.sin (rnd 1 * π * 2) * (rnd 0 * 0.5), 0) = rnd 0 * 0.5 :=
      originDist_cos_sin (rnd 1 * π * 2) (rnd 0 * 0.5) (by nlinarith)
    calc originDist ((Real.cos (rnd 1 * π * 2) * (rnd 0 * 0.5),
          Real.sin (rnd 1 * π * 2) * (rnd 0 * 0.5), 0), (0:ℝ)).1 = rnd 0 * 0.5 := heq
      _ ≤ 0.5 := by nlinarith

/-- Witness for `genTarget_in_region` at `p = 0` with the constant draw 0. -/
theorem genTarget_in_region_witness :
    ((0:ℝ) < 0.08 → originDist (genTarget 0 (fun _ => 0)).1 = 6.5) ∧
      ((0.30:ℝ) ≤ 0 → (0:ℝ) < 0.40 → originDist (genTarget 0 (fun _ => 0)).1 = 3.2) ∧
      ((0.72:ℝ) ≤ 0 → (0:ℝ) < 0.82 → originDist (genTarget 0 (fun _ => 0)).1 = 1.2) ∧
      ((0.40:ℝ) ≤ 0 → (0:ℝ) < 0.60 →
        moonValid ((genTarget 0 (fun _ => 0)).1.1, (genTarget 0 (fun _ => 0)).1.2.1)) ∧
      ((0.92:ℝ) ≤ 0 → originDist (genTarget 0 (fun _ => 0)).1 ≤ 0.5) :=
  genTarget_in_region 0 (fun _ => 0) (fun _ => ⟨le_refl 0, by norm_num⟩)

/-- Every pentagram tip lies on the circle of radius `r`. -/
theorem sq_norm_getPentagramPoint (r : ℝ) (idx : ℕ) (off : ℝ) :
    (getPentagramPoint r idx off).1 ^ 2 + (getPentagramPoint r idx off).2.1 ^ 2 =
      r ^ 2 := by
  rw [getPentagramPoint, getCirclePoint]
  linear_combination r ^ 2 * Real.sin_sq_add_cos_sq ((idx : ℝ) * 2 * π / 5 + π / 2 + off)

/-- A point interpolated between two points of the circle of radius `R` at a
fraction `t` in `[0, 1]` stays inside that circle. -/
theorem sq_norm_lerpPoint_le (p1 p2 : ℝ × ℝ × ℝ) (R t : ℝ)
    (h1 : p1.1 ^ 2 + p1.2.1 ^ 2 = R ^ 2) (h2 : p2.1 ^ 2 + p2.2.1 ^ 2 = R ^ 2)
    (ht0 : 0 ≤ t) (ht1 : t ≤ 1) :
    (lerpPoint p1 p2 t).1 ^ 2 + (lerpPoint p1 p2 t).2.1 ^ 2 ≤ R ^ 2 := by
  rw [lerpPoint]
  show (p1.1 + (p2.1 - p1.1) * t) ^ 2 + (p1.2.1 + (p2.2.1 - p1.2.1) * t) ^ 2 ≤ R ^ 2
  have hkey : 0 ≤ t * (1 - t) * ((p2.1 - p1.1) ^ 2 + (p2.2.1 - p1.2.1) ^ 2) :=
    mul_nonneg (mul_nonneg ht0 (by linarith))
      (add_nonneg (sq_nonneg _) (sq_nonneg _))
  nlinarith [hkey, h1, h2]

/-- A star-segment sample lies within distance `r` of the origin. -/
theorem originDist_starSegmentPoint_le (r off u t : ℝ) (hrr : 0 ≤ r)
    (ht0 : 0 ≤ t) (ht1 : t ≤ 1) :
    originDist (starSegmentPoint r off u t) ≤ r := by
  rw [starSegmentPoint]
  have hb := sq_norm_lerpPoint_le
    (getPentagramPoint r (starPath.getD (floorNat (u * 5)) 0) off)
    (getPentagramPoint r (starPath.getD (floorNat (u * 5) + 1) 0) off) r t
    (sq_norm_getPentagramPoint r _ off) (sq_norm_getPentagramPoint r _ off) ht0 ht1
  apply originDist_le_of_sq _ _ hrr
  have hz : (lerpPoint (getPentagramPoint r (starPath.getD (floorNat (u * 5)) 0) off)
      (getPentagramPoint r (starPath.getD (floorNat (u * 5) + 1) 0) off) t).2.2 =
      (0:ℝ) := rfl
  rw [hz]
  nlinarith [hb]

/-- A point passing the crescent acceptance test is within distance 6.5 of the
origin (the body circle's farthest point from the origin is at 4.85 + 1.65). -/
theorem moonValid_sq_le (x y : ℝ) (h : moonValid (x, y)) :
    x ^ 2 + y ^ 2 ≤ 6.5 ^ 2 := by
  obtain ⟨hb, -⟩ := h
  rw [rBody] at hb
  have h0 : (0:ℝ) ≤ (((x:ℝ), (y:ℝ)).1 - cxBody) ^ 2 + ((x:ℝ), (y:ℝ)).2 ^ 2 := by
    positivity
  have hsq := Real.sq_sqrt h0
  have hnn := Real.sqrt_nonneg ((((x:ℝ), (y:ℝ)).1 - cxBody) ^ 2 + ((x:ℝ), (y:ℝ)).2 ^ 2)
  have hs : (x - cxBody) ^ 2 + y ^ 2 ≤ (1.65:ℝ) ^ 2 := by nlinarith [hb, hsq, hnn]
  rw [cxBody] at hs
  nlinarith [sq_nonneg (x + 6.5), sq_nonneg y, hs]

/-- C10: for every branch-selector draw and every sequence of draws in `[0,1)`,
the generated target position has z-coordinate exactly 0 and lies within
distance 6.5 of the origin. -/
theorem genTarget_in_plane_bounded (p : ℝ) (rnd : ℕ → ℝ)
    (hr : ∀ i, 0 ≤ rnd i ∧ rnd i < 1) :
    (genTarget p rnd).1.2.2 = 0 ∧ originDist (genTarget p rnd).1 ≤ 6.5 := by
  have ht0 := (hr 1).1
  have ht1 : rnd 1 ≤ 1 := le_of_lt (hr 1).2
  by_cases h1 : p < 0.08
  · rw [genTarget_outerRing rnd h1]
    exact ⟨rfl, le_of_eq (originDist_cos_sin (rnd 0 * π * 2) 6.5 (by norm_num))⟩
  by_cases h2 : p < 0.20
  · rw [genTarget_starA rnd (not_lt.mp h1) h2]
    exact ⟨rfl, originDist_starSegmentPoint_le 6.5 0 (rnd 0) (rnd 1)
      (by norm_num) ht0 ht1⟩
  by_cases h3 : p < 0.30
  · rw [genTarget_starB rnd (not_lt.mp h2) h3]
    exact ⟨rfl, originDist_starSegmentPoint_le 6.5 (π / 1) (rnd 0) (rnd 1)
      (by norm_num) ht0 ht1⟩
  by_cases h4 : p < 0.40
  · rw [genTarget_middleRing rnd (not_lt.mp h3) h4]
    refine ⟨rfl, ?_⟩
    calc originDist ((getCirclePoint 3.2 (rnd 0 * π * 2), (0:ℝ))).1 = 3.2 :=
          originDist_cos_sin (rnd 0 * π * 2) 3.2 (by norm_num)
      _ ≤ 6.5 := by norm_num
  by_cases h5 : p < 0.60
  · rw [genTarget_moon rnd (not_lt.mp h4) h5]
    have hv := getMoonPointAux_valid rnd 20 0
    refine ⟨hv.2, ?_⟩
    apply originDist_le_of_sq _ _ (by norm_num)
    have hd := moonValid_sq_le (getMoonPointAux rnd 0 20).1
      (getMoonPointAux rnd 0 20).2.1 hv.1
    have hz : ((getMoonPoint rnd, (1:ℝ))).1.2.2 = (0:ℝ) := hv.2
    rw [hz]
    show (getMoonPointAux rnd 0 20).1 ^ 2 + (getMoonPointAux rnd 0 20).2.1 ^ 2 +
      (0:ℝ) ^ 2 ≤ 6.5 ^ 2
    nlinarith [hd]
  by_cases h6 : p < 0.72
  · rw [genTarget_innerStar rnd (not_lt.mp h5) h6]
    refine ⟨rfl, ?_⟩
    calc originDist ((starSegmentPoint 3.2 0 (rnd 0) (rnd 1), (0:ℝ))).1 ≤ 3.2 :=
          originDist_starSegmentPoint_le 3.2 0 (rnd 0) (rnd 1) (by norm_num) ht0 ht1
      _ ≤ 6.5 := by norm_num
  by_cases h7 : p < 0.82
  · rw [genTarget_innerRing rnd (not_lt.mp h6) h7]
    refine ⟨rfl, ?_⟩
    calc originDist ((getCirclePoint 1.2 (rnd 0 * π * 2), (0:ℝ))).1 = 1.2 :=
          originDist_cos_sin (rnd 0 * π * 2) 1.2 (by norm_num)
      _ ≤ 6.5 := by norm_num
  by_cases h8 : p < 0.92
  · rw [genTarget_centerStar rnd (not_lt.mp h7) h8]
    refine ⟨rfl, ?_⟩
    calc originDist ((starSegmentPoint 1.2 π (rnd 0) (rnd 1), (0:ℝ))).1 ≤ 1.2 :=
          originDist_starSegmentPoint_le 1.2 π (rnd 0) (rnd 1) (by norm_num) ht0 ht1
      _ ≤ 6.5 := by norm_num
  · rw [genTarget_centerFill rnd (not_lt.mp h8)]
    refine ⟨rfl, ?_⟩
    have h0 := (hr 0).1
    have h01 := (hr 0).2
    calc originDist ((Real.cos (rnd 1 * π * 2) * (rnd 0 * 0.5),
          Real.sin (rnd 1 * π * 2) * (rnd 0 * 0.5), 0), (0:ℝ)).1 = rnd 0 * 0.5 :=
          originDist_cos_sin (rnd 1 * π * 2) (rnd 0 * 0.5) (by nlinarith)
      _ ≤ 6.5 := by nlinarith

/-- Witness for `genTarget_in_plane_bounded` at `p = 1/2` (the moon branch)
with the constant draw 0. -/
theorem genTarget_in_plane_bounded_witness :
    (genTarget (1/2) (fun _ => 0)).1.2.2 = 0 ∧
      originDist (genTarget (1/2) (fun _ => 0)).1 ≤ 6.5 :=
  genTarget_in_plane_bounded (1/2) (fun _ => 0) (fun _ => ⟨le_refl 0, by norm_num⟩)
